import Mathlib

/-!
Verification development for the `anzen` double-entry ledger posting engine
and its bank-statement ingestion pipeline.

The definitions below are shallow embeddings of the repository's code:

* `postPettyCashToJournalFixed`, `insertPettyCashTxn`, `deletePettyCashTxn`
  embed the PL/pgSQL trigger functions `post_petty_cash_to_journal_fixed`
  (migration `20260130145741_..._v2.sql`) and `delete_petty_cash_journal`.
* `generateLoanNumber` embeds `generate_loan_number` from the same migration.
* `getTrialBalance` embeds the SQL function `get_trial_balance`.
* `createStaffAccount` embeds the SQL function `create_staff_account`.
* `parseAmount`, `parseTransactions`, `extractTextFromPDF`, `handleUpload`
  embed the corresponding parts of
  `supabase/functions/parse-bca-statement/index.ts`.

JavaScript/SQL strings are modelled as `List Char` (named `Str` below).
Ledger amounts (`NUMERIC(15,2)`) are exact decimals on which the code only
adds, subtracts and compares, so any exact representation serves; they are
modelled as integers (`Int`).  The statement parser produces decimals of
the form `mant / 10 ^ scale`, modelled exactly by the pair (`DecAmount`
below) with a `toRat` view giving the numeric value.  Row identifiers
(`uuid`) are modelled as `Nat`.
-/

/-- Strings of the modelled programs are lists of characters. -/
abbrev Str := List Char

/-- Convert a Lean string literal to the model's string type. -/
def toL (s : String) : Str := s.data

/-- The decimal digit character for a value `d < 10` (PostgreSQL `::TEXT`,
JS `String(n)`). -/
def natDigitChar (d : Nat) : Char := Char.ofNat (48 + d)

/-- Numeric value of a decimal digit character. -/
def charVal (c : Char) : Nat := c.toNat - 48

/-- Fuel-driven decimal rendering of a natural number, most significant
digit first.  `fuel > n` always suffices. -/
def decCharsAux : Nat → Nat → Str
  | 0, _ => []
  | fuel + 1, n =>
    if n < 10 then [natDigitChar n]
    else decCharsAux fuel (n / 10) ++ [natDigitChar (n % 10)]

/-- Decimal rendering of a natural number (models `n::TEXT` / `String(n)`). -/
def decChars (n : Nat) : Str := decCharsAux (n + 1) n

/-- PostgreSQL `LPAD(s, len, '0')`: left-pad with zeros up to `len`
characters, truncating on the right when `s` is longer than `len`. -/
def lpadZero (len : Nat) (s : Str) : Str :=
  if len ≤ s.length then s.take len
  else List.replicate (len - s.length) '0' ++ s

/-- Read a digit string back as a natural number (big-endian fold). -/
def parseNatChars (s : Str) : Nat :=
  s.foldl (fun a c => 10 * a + charVal c) 0

/-- Calendar dates as they appear in `DATE` columns. -/
structure Date where
  year : Nat
  month : Nat
  day : Nat
deriving DecidableEq, Repr

/-- PostgreSQL `TO_CHAR(d, 'YYMM')`: two-digit year then two-digit month. -/
def toCharYYMM (d : Date) : Str :=
  lpadZero 2 (decChars (d.year % 100)) ++ lpadZero 2 (decChars d.month)

/-- PostgreSQL `TO_CHAR(d, 'YYYYMMDD')`. -/
def toCharYYYYMMDD (d : Date) : Str :=
  lpadZero 4 (decChars d.year) ++ lpadZero 2 (decChars d.month) ++
    lpadZero 2 (decChars d.day)

/-- PostgreSQL `DATE_TRUNC('month', a) = DATE_TRUNC('month', b)`. -/
def sameMonth (a b : Date) : Bool :=
  a.year == b.year && a.month == b.month

/-- Row of `chart_of_accounts`. -/
structure Account where
  id : Nat
  code : Str
  name : Str
  accountType : Str
  accountGroup : Str
  normalBalance : Str
  isActive : Bool
  description : Str
deriving DecidableEq, Repr

/-- Row of `bank_accounts` (only the columns the triggers read). -/
structure BankAccount where
  id : Nat
  coaId : Option Nat
deriving DecidableEq, Repr

/-- Row of `journal_entries`. -/
structure JournalEntry where
  id : Nat
  entryNumber : Str
  entryDate : Date
  sourceModule : Str
  referenceId : Nat
  referenceNumber : Str
  description : Str
  isPosted : Bool
deriving DecidableEq, Repr

/-- Row of `journal_entry_lines`. -/
structure JournalLine where
  journalEntryId : Nat
  lineNumber : Nat
  accountId : Nat
  debit : Int
  credit : Int
  description : Str
deriving DecidableEq, Repr

/-- Row of `petty_cash_transactions` (the columns the triggers read). -/
structure PettyTxn where
  id : Nat
  transactionType : Str
  transactionDate : Date
  transactionNumber : Str
  amount : Int
  description : Str
  expenseCategory : Option Str
  bankAccountId : Option Nat
  fundTransferId : Option Nat
deriving DecidableEq, Repr

/-- The database state the ledger triggers read and write. -/
structure LedgerDB where
  coa : List Account
  banks : List BankAccount
  entries : List JournalEntry
  lines : List JournalLine
  pettyTxns : List PettyTxn
  nextId : Nat
deriving DecidableEq, Repr

/-- Sum of the debit column over a list of journal lines. -/
def sumDebits (ls : List JournalLine) : Int := (ls.map (fun l => l.debit)).sum

/-- Sum of the credit column over a list of journal lines. -/
def sumCredits (ls : List JournalLine) : Int := (ls.map (fun l => l.credit)).sum

/-- The `CASE` expression of `post_petty_cash_to_journal_fixed` mapping an
expense category to the account code it looks up (`ELSE code = '5102'`;
a `NULL` category falls through every `WHEN` to the `ELSE` branch). -/
def expenseCategoryCode : Option Str → Str
  | none => toL "5102"
  | some s =>
    if s = toL "Utilities" then toL "6300"
    else if s = toL "Office Supplies" then toL "6310"
    else if s = toL "Transportation" then toL "6320"
    else if s = toL "Meals & Entertainment" then toL "6330"
    else if s = toL "Postage & Courier" then toL "6340"
    else if s = toL "Cleaning & Maintenance" then toL "6350"
    else if s = toL "Staff Salaries & Wages" then toL "6360"
    else if s = toL "Staff Benefits & Allowances" then toL "6370"
    else if s = toL "Printing & Stationery" then toL "6380"
    else if s = toL "Telephone & Internet" then toL "6390"
    else if s = toL "Bank Charges" then toL "6400"
    else if s = toL "Professional Fees" then toL "6410"
    else if s = toL "Office Renovation & Shifting" then toL "6420"
    else if s = toL "Other Expenses" then toL "6490"
    else toL "5102"

/-- Body of the trigger function `post_petty_cash_to_journal_fixed`
(migration `20260130145741`, step 12; the earlier migration's
`post_petty_cash_to_journal` has the same posting logic).  Returns the
journal rows the function inserts, or the message of the exception it
raises.  `db.nextId` stands in for `gen_random_uuid()`. -/
def postPettyCashToJournalFixed (db : LedgerDB) (t : PettyTxn) :
    Except Str (List JournalEntry × List JournalLine) :=
  if t.fundTransferId.isSome then .ok ([], [])
  else
    match db.coa.find? (fun a => a.code == toL "1102") with
    | none => .error (toL "Petty cash account 1102 not found")
    | some petty =>
      let cnt := (db.entries.filter
        (fun je => je.entryDate == t.transactionDate)).length
      let jeNumber := toL "JE-" ++ toCharYYYYMMDD t.transactionDate ++
        toL "-" ++ lpadZero 4 (decChars (cnt + 1))
      let jid := db.nextId
      let je : JournalEntry :=
        { id := jid, entryNumber := jeNumber,
          entryDate := t.transactionDate,
          sourceModule := toL "petty_cash", referenceId := t.id,
          referenceNumber := t.transactionNumber,
          description := toL "Petty cash " ++ t.transactionType ++
            toL ": " ++ t.description,
          isPosted := true }
      if t.transactionType = toL "withdraw" then
        let l1 : JournalLine :=
          { journalEntryId := jid, lineNumber := 1, accountId := petty.id,
            debit := t.amount, credit := 0,
            description := toL "Cash withdrawal" }
        match t.bankAccountId with
        | none => .ok ([je], [l1])
        | some bid =>
          match db.banks.find? (fun b => b.id == bid) with
          | none => .ok ([je], [l1])
          | some b =>
            match b.coaId with
            | none => .ok ([je], [l1])
            | some coaId =>
              .ok ([je], [l1,
                { journalEntryId := jid, lineNumber := 2,
                  accountId := coaId, debit := 0, credit := t.amount,
                  description := toL "Bank withdrawal for petty cash" }])
      else if t.transactionType = toL "expense" then
        let target := expenseCategoryCode t.expenseCategory
        let found :=
          match db.coa.find?
            (fun a => a.accountType == toL "expense" && a.code == target) with
          | some a => some a
          | none => db.coa.find? (fun a => a.code == toL "5102")
        match found with
        | none => .error (toL "No expense account found for petty cash expense")
        | some exp =>
          .ok ([je],
            [{ journalEntryId := jid, lineNumber := 1, accountId := exp.id,
               debit := t.amount, credit := 0,
               description := t.expenseCategory.getD (toL "General expense") },
             { journalEntryId := jid, lineNumber := 2,
               accountId := petty.id, debit := 0, credit := t.amount,
               description := toL "Cash expense" }])
      else .ok ([je], [])

/-- Inserting a row into `petty_cash_transactions`.  The `AFTER INSERT`
trigger runs `post_petty_cash_to_journal_fixed`; its `EXCEPTION WHEN OTHERS`
handler turns any posting error into `RAISE WARNING` followed by
`RETURN NEW`, so the inserted row survives either way and a posting failure
leaves the journal untouched. -/
def insertPettyCashTxn (db : LedgerDB) (t : PettyTxn) : LedgerDB :=
  let db1 := { db with pettyTxns := db.pettyTxns ++ [t] }
  match postPettyCashToJournalFixed db t with
  | .ok (es, ls) =>
    { db1 with entries := db1.entries ++ es, lines := db1.lines ++ ls,
               nextId := db1.nextId + 1 }
  | .error _ => db1

/-- Deleting a row of `petty_cash_transactions`.  The `BEFORE DELETE`
trigger `delete_petty_cash_journal` first deletes the journal lines whose
entry matches `(source_module = 'petty_cash', reference_id = OLD.id)` and
then those journal entries; finally the transaction row itself goes. -/
def deletePettyCashTxn (db : LedgerDB) (txnId : Nat) : LedgerDB :=
  let matchEntry := fun (je : JournalEntry) =>
    je.sourceModule == toL "petty_cash" && je.referenceId == txnId
  let ids := (db.entries.filter matchEntry).map (fun je => je.id)
  { db with
    lines := db.lines.filter (fun l => !(ids.contains l.journalEntryId)),
    entries := db.entries.filter (fun je => !(matchEntry je)),
    pettyTxns := db.pettyTxns.filter (fun t => !(t.id == txnId)) }

/-- Row of `staff_loans` (the columns `generate_loan_number` reads). -/
structure StaffLoan where
  loanNumber : Str
  loanDate : Date
deriving DecidableEq, Repr

/-- Number of `staff_loans` rows in the same calendar month as `d`
(the `COUNT(*)` of `generate_loan_number`). -/
def countLoansInMonth (loans : List StaffLoan) (d : Date) : Nat :=
  (loans.filter (fun l => sameMonth l.loanDate d)).length

/-- The trigger function `generate_loan_number` (migration `20260130145741`,
step 8), for a `NEW` row without a number:
`'LOAN-' || TO_CHAR(NEW.loan_date, 'YYMM') || '-' ||
LPAD((COUNT(*) + 1)::TEXT, 4, '0')` counting the rows of the visible
table snapshot that fall in the month of `NEW.loan_date`. -/
def generateLoanNumber (loans : List StaffLoan) (d : Date) : Str :=
  toL "LOAN-" ++ toCharYYMM d ++ toL "-" ++
    lpadZero 4 (decChars (countLoansInMonth loans d + 1))

/-- Two concurrent `staff_loans` inserts on date `d`.  Under read committed
isolation each trigger's `COUNT(*)` sees only the snapshot `loans` — neither
sees the other transaction's uncommitted row — so both compute their number
from the same state before both commits land. -/
def concurrentLoanInserts (loans : List StaffLoan) (d : Date) :
    List StaffLoan :=
  let n1 := generateLoanNumber loans d
  let n2 := generateLoanNumber loans d
  loans ++ [{ loanNumber := n1, loanDate := d },
            { loanNumber := n2, loanDate := d }]

/-- Row of `staff_members` (the columns `create_staff_account` touches). -/
structure StaffMember where
  id : Nat
  staffName : Str
  coaAccountId : Nat
  employeeId : Option Str
deriving DecidableEq, Repr

/-- State read and written by `create_staff_account`. -/
structure StaffDB where
  coa : List Account
  staff : List StaffMember
  nextId : Nat
deriving DecidableEq, Repr

/-- ASCII lowering of one character (PostgreSQL `LOWER` on the ASCII names
the repository stores). -/
def lowerChar (c : Char) : Char :=
  if 'A' ≤ c ∧ c ≤ 'Z' then Char.ofNat (c.toNat + 32) else c

/-- PostgreSQL `LOWER(s)` on ASCII strings. -/
def lowerStr (s : Str) : Str := s.map lowerChar

/-- The staff-account code `create_staff_account` computes:
`'116' || LPAD((COUNT(*) + 1)::TEXT, 1, '0')` where the count ranges over
`chart_of_accounts` codes `LIKE '116%'` other than `'1160'`.  Note the pad
width of `1`: `LPAD` truncates `'10'` to `'1'`. -/
def nextStaffCode (coa : List Account) : Str :=
  let cnt := (coa.filter
    (fun a => (toL "116").isPrefixOf a.code && a.code != toL "1160")).length
  toL "116" ++ lpadZero 1 (decChars (cnt + 1))

/-- The SQL function `create_staff_account(p_staff_name, p_employee_id)`.
It returns the existing account for a case-insensitively matching staff
name; otherwise it inserts a `chart_of_accounts` row under `nextStaffCode`
and a `staff_members` row mapping the name to it.  `chart_of_accounts.code`
is unique (the earlier migrations insert with `ON CONFLICT (code)`), so an
insert with an already-present code raises and the call fails, modelled by
the `Except.error` branch.  `st.nextId` stands in for `gen_random_uuid()`. -/
def createStaffAccount (st : StaffDB) (name : Str) (employeeId : Option Str) :
    StaffDB × Except Str Nat :=
  match st.staff.find? (fun m => lowerStr m.staffName == lowerStr name) with
  | some m => (st, .ok m.coaAccountId)
  | none =>
    let code := nextStaffCode st.coa
    if st.coa.any (fun a => a.code == code) then
      (st, .error (toL "duplicate key value violates unique constraint"))
    else
      let acct : Account :=
        { id := st.nextId, code := code,
          name := name ++ toL " - Staff Advance",
          accountType := toL "asset", accountGroup := toL "",
          normalBalance := toL "", isActive := true,
          description := toL "Staff advance account for " ++ name }
      let mem : StaffMember :=
        { id := st.nextId + 1, staffName := name,
          coaAccountId := st.nextId, employeeId := employeeId }
      ({ coa := st.coa ++ [acct], staff := st.staff ++ [mem],
         nextId := st.nextId + 2 }, .ok st.nextId)

/-- One output row of `get_trial_balance`. -/
structure TrialBalanceRow where
  code : Str
  name : Str
  accountType : Str
  accountGroup : Str
  normalBalance : Str
  totalDebit : Int
  totalCredit : Int
  balance : Int
deriving DecidableEq, Repr

/-- The date predicate of `get_trial_balance`'s second join:
`(p_start_date IS NULL OR je.entry_date >= p_start_date) AND
je.entry_date <= p_end_date`, with dates mapped to day indices. -/
def trialBalanceDateOk (pStart : Option Nat) (pEnd : Nat) (d : Nat) : Bool :=
  (match pStart with | none => true | some s => s ≤ d) && d ≤ pEnd

/-- Journal entry rows keyed by a day index for `get_trial_balance`
(`entry_date` compared with the `DATE` parameters). -/
structure TBEntry where
  id : Nat
  entryDay : Nat
deriving DecidableEq, Repr

/-- Input tables of `get_trial_balance`. -/
structure TrialBalanceDB where
  coa : List Account
  entries : List TBEntry
  lines : List JournalLine
deriving DecidableEq, Repr

/-- The SQL function `get_trial_balance(p_start_date, p_end_date)`.  The
query is `chart_of_accounts` `LEFT JOIN journal_entry_lines` on the account
id, then `LEFT JOIN journal_entries` with the date predicate inside that
join's `ON` clause.  A left join can only attach or withhold the matching
`journal_entries` row from each line row — it never removes the line row —
and the aggregates read only `jel` columns, so every line of the account
contributes to the sums whether or not its entry satisfies the date
predicate.  `joined` makes that pairing explicit.  Output order
(`ORDER BY coa.code`) is presentational and kept as input order here. -/
def getTrialBalance (db : TrialBalanceDB) (pStart : Option Nat) (pEnd : Nat) :
    List TrialBalanceRow :=
  (db.coa.filter (fun a => a.isActive)).filterMap (fun a =>
    let joined := (db.lines.filter (fun l => l.accountId == a.id)).map
      (fun l => (l, db.entries.find?
        (fun je => je.id == l.journalEntryId &&
          trialBalanceDateOk pStart pEnd je.entryDay)))
    let totalDebit := (joined.map (fun r => r.1.debit)).sum
    let totalCredit := (joined.map (fun r => r.1.credit)).sum
    if totalDebit ≠ 0 ∨ totalCredit ≠ 0 then
      some { code := a.code, name := a.name, accountType := a.accountType,
             accountGroup := a.accountGroup,
             normalBalance := a.normalBalance,
             totalDebit := totalDebit, totalCredit := totalCredit,
             balance := if a.normalBalance = toL "debit" then
               totalDebit - totalCredit else totalCredit - totalDebit }
    else none)

/-- ASCII decimal digit test. -/
def isDigitChar (c : Char) : Bool := '0' ≤ c && c ≤ '9'

/-- The whitespace characters relevant to the parsed statements
(JS `\s` restricted to ASCII space, tab, newline, carriage return). -/
def isWsChar (c : Char) : Bool :=
  c == ' ' || c == '\t' || c == '\n' || c == '\r'

/-- JS `String.prototype.trim()` on ASCII whitespace. -/
def trimStr (s : Str) : Str :=
  ((s.dropWhile isWsChar).reverse.dropWhile isWsChar).reverse

/-- Replace the first comma by a period: JS `s.replace(',', '.')` with a
string pattern replaces only the first occurrence. -/
def replaceFirstComma : Str → Str
  | [] => []
  | c :: rest => if c = ',' then '.' :: rest else c :: replaceFirstComma rest

/-- Numeric value of a digit run (most significant first). -/
def digitsVal (ds : Str) : Nat := ds.foldl (fun a c => 10 * a + charVal c) 0

/-- An exact decimal value `mant / 10 ^ scale`.  Every number the
statement parser manipulates has this form, and the code only compares
such numbers, so the pair is a lossless model of the JS numbers
involved. -/
structure DecAmount where
  mant : Nat
  scale : Nat
deriving DecidableEq, Repr

/-- Numeric value of a parsed decimal. -/
def DecAmount.toRat (d : DecAmount) : Rat :=
  (d.mant : Rat) / (10 : Rat) ^ d.scale

/-- Value comparison `a < b` on parsed decimals (cross-multiplied). -/
def DecAmount.lt (a b : DecAmount) : Bool :=
  a.mant * 10 ^ b.scale < b.mant * 10 ^ a.scale

/-- The decimal zero (the JS literal `0`). -/
def decZero : DecAmount := { mant := 0, scale := 0 }

/-- JS `parseFloat` restricted to the strings `parseAmount` feeds it
(digits, periods and commas; no sign, exponent or whitespace): the longest
prefix of the form `digits [ '.' digits ]` is read as the decimal
`digits.digits`, and `none` models `NaN` when no digit is consumed. -/
def jsParseFloat (s : Str) : Option DecAmount :=
  let intPart := s.takeWhile isDigitChar
  let rest := s.dropWhile isDigitChar
  match rest with
  | '.' :: rest2 =>
    let fracPart := rest2.takeWhile isDigitChar
    if intPart.isEmpty ∧ fracPart.isEmpty then none
    else some { mant := digitsVal (intPart ++ fracPart),
                scale := fracPart.length }
  | _ =>
    if intPart.isEmpty then none
    else some { mant := digitsVal intPart, scale := 0 }

/-- The separator-normalisation step of `parseAmount`
(`parse-bca-statement/index.ts`), translated branch for branch:
dots-and-comma handling first, then multiple commas, then a lone dot
(left as is), then a lone comma (decimal), else strip non-digits. -/
def cleanAmount (s0 : Str) : Str :=
  let s := trimStr s0
  let dotCount := s.count '.'
  let commaCount := s.count ','
  if dotCount > 1 ∨ (dotCount = 1 ∧ commaCount = 1) then
    replaceFirstComma (s.filter (fun c => c ≠ '.'))
  else if commaCount > 1 then s.filter (fun c => c ≠ ',')
  else if dotCount = 1 ∧ commaCount = 0 then s
  else if commaCount = 1 ∧ dotCount = 0 then replaceFirstComma s
  else s.filter isDigitChar

/-- The function `parseAmount` of `parse-bca-statement/index.ts`:
normalise separators, then `parseFloat(cleaned) || 0`. -/
def parseAmount (s : Str) : DecAmount :=
  (jsParseFloat (cleanAmount s)).getD decZero

/-- Modelled from the spec's disambiguation policy, stated in its order:
more than one period makes periods thousands separators and the comma the
decimal mark; more than one comma makes commas thousands separators;
exactly one of each makes the period thousands and the comma decimal;
exactly one comma and no periods makes the comma decimal; otherwise the
token is treated as already-normalized digits. -/
def specNormalize (s0 : Str) : DecAmount :=
  let s := trimStr s0
  let dotCount := s.count '.'
  let commaCount := s.count ','
  let read := fun (t : Str) => (jsParseFloat t).getD decZero
  if dotCount > 1 then read (replaceFirstComma (s.filter (fun c => c ≠ '.')))
  else if commaCount > 1 then read (s.filter (fun c => c ≠ ','))
  else if dotCount = 1 ∧ commaCount = 1 then
    read (replaceFirstComma (s.filter (fun c => c ≠ '.')))
  else if commaCount = 1 ∧ dotCount = 0 then read (replaceFirstComma s)
  else read s

/-- A monetary token as the statement regexes deliver it: digits with
period and comma separators only. -/
def IsAmountToken (s : Str) : Prop :=
  ∀ c ∈ s, isDigitChar c = true ∨ c = '.' ∨ c = ','

instance (s : Str) : Decidable (IsAmountToken s) := by
  unfold IsAmountToken; infer_instance

/-- One parsed statement transaction (`ParsedTransaction` in
`parse-bca-statement/index.ts`). -/
structure ParsedTxn where
  date : Str
  description : Str
  branchCode : Str
  debitAmount : DecAmount
  creditAmount : DecAmount
  balance : Option DecAmount
deriving DecidableEq, Repr

/-- JS `padStart(2, '0')`. -/
def padStart2 (s : Str) : Str :=
  if 2 ≤ s.length then s else List.replicate (2 - s.length) '0' ++ s

/-- JS `toUpperCase` on ASCII strings. -/
def upperStr (s : Str) : Str :=
  s.map (fun c => if 'a' ≤ c ∧ c ≤ 'z' then Char.ofNat (c.toNat - 32) else c)

/-- The amount ceiling `1000000000000` used by all three transaction
patterns of `parseBCAStatement`. -/
def amountCeiling : DecAmount := { mant := 1000000000000, scale := 0 }

/-- One match of transaction pattern 1 of `parseBCAStatement`
(`/(\d2\/\d2)\s+([A-Z][A-Za-z\s\-\/]+?)\s+(amount)\s*(DB|CR)?\s*(amount)?/`),
after the code's split of the date group on `/`. -/
structure P1Match where
  dayStr : Str
  monthStr : Str
  desc : Str
  amountStr : Str
  indicator : Option Str
  balanceStr : Option Str
deriving DecidableEq, Repr

/-- Loop body of pattern 1: parse the amount and optional balance, decide
the side from the indicator (debit when absent or `DB`), and keep the
transaction when `0 < amount < 10^12`. -/
def mkTxnP1 (year : Str) (m : P1Match) : Option ParsedTxn :=
  let amount := parseAmount m.amountStr
  let balance := m.balanceStr.map parseAmount
  let isDebit := match m.indicator with
    | none => true
    | some s => upperStr s = toL "DB"
  if decZero.lt amount ∧ amount.lt amountCeiling then
    some { date := year ++ toL "-" ++ padStart2 m.monthStr ++ toL "-" ++
             padStart2 m.dayStr,
           description := (trimStr m.desc).take 500,
           branchCode := toL "",
           debitAmount := if isDebit then amount else decZero,
           creditAmount := if isDebit then decZero else amount,
           balance := balance }
  else none

/-- One match of fallback pattern 2 (`/(\d2\/\d2)[^\d]+(amount)/` plus the
nearby-context description search). -/
structure P2Match where
  dayStr : Str
  monthStr : Str
  amountStr : Str
  contextDesc : Option Str
deriving DecidableEq, Repr

/-- Loop body of pattern 2: always a debit-side transaction when
`0 < amount < 10^12`. -/
def mkTxnP2 (year : Str) (m : P2Match) : Option ParsedTxn :=
  let amount := parseAmount m.amountStr
  let description := (m.contextDesc.map trimStr).getD (toL "Transaction")
  if decZero.lt amount ∧ amount.lt amountCeiling then
    some { date := year ++ toL "-" ++ padStart2 m.monthStr ++ toL "-" ++
             padStart2 m.dayStr,
           description := description.take 200,
           branchCode := toL "",
           debitAmount := amount, creditAmount := decZero, balance := none }
  else none

/-- Fallback pattern 3: every separator-bearing numeric token with
`1000 < amount < 10^12` becomes a debit transaction dated at the statement
start. -/
def mkTxnsP3 (txnDate : Str) (tokens : List Str) : List ParsedTxn :=
  let amounts := (tokens.map parseAmount).filter
    (fun a => DecAmount.lt { mant := 1000, scale := 0 } a ∧
      a.lt amountCeiling)
  amounts.enum.map (fun p =>
    { date := txnDate,
      description := toL "Transaction " ++ decChars (p.1 + 1),
      branchCode := toL "",
      debitAmount := p.2, creditAmount := decZero, balance := none })

/-- The transaction-assembly core of `parseBCAStatement`
(`parse-bca-statement/index.ts`): pattern 1's matches are taken first;
only when they produce no transaction does pattern 2 run, and only when
that also produces nothing does pattern 3.  The regex scanning itself is
abstracted as the three match lists it yields. -/
def parseTransactions (year : Str) (txnDate : Str) (m1 : List P1Match)
    (m2 : List P2Match) (m3 : List Str) : List ParsedTxn :=
  let t1 := m1.filterMap (mkTxnP1 year)
  if t1.isEmpty then
    let t2 := m2.filterMap (mkTxnP2 year)
    if t2.isEmpty then mkTxnsP3 txnDate m3 else t2
  else t1

/-- The persisted result of `parseBCAStatement` that the upload handler
consumes. -/
structure ParsedStatement where
  period : Str
  startDate : Str
  endDate : Str
  openingBalance : DecAmount
  closingBalance : DecAmount
  transactions : List ParsedTxn
deriving DecidableEq, Repr

/-- Row of `bank_statement_uploads` (the columns the handler writes). -/
structure UploadRow where
  id : Nat
  bankAccountId : Nat
  statementPeriod : Str
  transactionCount : Nat
  status : Str
deriving DecidableEq, Repr

/-- Row of `bank_statement_lines` (the columns the handler writes). -/
structure StatementLineRow where
  uploadId : Nat
  bankAccountId : Nat
  transactionDate : Str
  description : Str
  debitAmount : DecAmount
  creditAmount : DecAmount
  runningBalance : Option DecAmount
  reconciliationStatus : Str
deriving DecidableEq, Repr

/-- Persistent state touched by the upload endpoint: the
`bank-statements` storage bucket and the two statement tables. -/
structure UploadStore where
  documents : List Str
  uploads : List UploadRow
  statementLines : List StatementLineRow
  nextUploadId : Nat
deriving DecidableEq, Repr

/-- Response of the upload endpoint: the success payload or the
`400` error body. -/
inductive UploadResponse where
  | ok (uploadId : Nat) (transactionCount : Nat)
  | failure (message : Str)
deriving DecidableEq, Repr

/-- The persistence phase of the `Deno.serve` handler in
`parse-bca-statement/index.ts`, starting from the parse result: when no
transactions were recovered the handler throws — caught by the outer
`catch`, which returns the error body with status 400 — before the
document upload, the `bank_statement_uploads` insert and the
`bank_statement_lines` insert; otherwise those three writes happen in that
order and the success payload is returned. -/
def handleUpload (parsed : ParsedStatement) (bankAccountId : Nat)
    (fileName : Str) (st : UploadStore) : UploadStore × UploadResponse :=
  if parsed.transactions.length = 0 then
    (st, .failure (toL
      "No transactions found in PDF. Please check if this is a valid BCA statement."))
  else
    let st1 := { st with documents := st.documents ++ [fileName] }
    let uploadId := st1.nextUploadId
    let st2 := { st1 with
      uploads := st1.uploads ++
        [({ id := uploadId, bankAccountId := bankAccountId,
            statementPeriod := parsed.period,
            transactionCount := parsed.transactions.length,
            status := toL "completed" } : UploadRow)],
      nextUploadId := uploadId + 1 }
    let rows := parsed.transactions.map (fun t => ({
      uploadId := uploadId, bankAccountId := bankAccountId,
      transactionDate := t.date, description := t.description,
      debitAmount := t.debitAmount, creditAmount := t.creditAmount,
      runningBalance := t.balance,
      reconciliationStatus := toL "unmatched" } : StatementLineRow))
    let st3 := { st2 with statementLines := st2.statementLines ++ rows }
    (st3, .ok uploadId parsed.transactions.length)

/-- Lazy-block matcher used for `/BT\s+([\s\S]+?)\s+ET/g` and
`/stream\s+([\s\S]+?)\s+endstream/g`: after the opening keyword and its
greedy whitespace run, the lazy group grows until the first position whose
maximal whitespace run is immediately followed by the closing keyword
(the closing keyword starts with a non-whitespace character, so
backtracking inside `\s+` can only stop there).  Scanning resumes after
the consumed match, as `matchAll` does.  The auxiliary finds the
terminator for one candidate match, returning the captured remainder
and the text after the closing keyword. -/
def findBlockEnd (kw2 : Str) : Nat → Str → Option (Str × Str)
  | 0, _ => none
  | _ + 1, [] => none
  | fuel + 1, c :: rest =>
    let keepGoing := fun (_ : Unit) =>
      match findBlockEnd kw2 fuel rest with
      | some (content, rest2) => some (c :: content, rest2)
      | none => none
    if isWsChar c then
      let after := (c :: rest).dropWhile isWsChar
      if kw2.isPrefixOf after then some ([], after.drop kw2.length)
      else keepGoing ()
    else keepGoing ()

/-- All captures of `/kw1\s+([\s\S]+?)\s+kw2/g` over `cs`, scanning left to
right: a failed candidate start advances by one character, a successful
match resumes after its closing keyword. -/
def matchBlocksAux (kw1 kw2 : Str) : Nat → Str → List Str
  | 0, _ => []
  | _ + 1, [] => []
  | fuel + 1, c :: rest =>
    let skip := fun (_ : Unit) => matchBlocksAux kw1 kw2 fuel rest
    if kw1.isPrefixOf (c :: rest) then
      let afterKw := (c :: rest).drop kw1.length
      let body := afterKw.dropWhile isWsChar
      if afterKw.length = body.length then skip ()
      else
        match body with
        | [] => skip ()
        | c0 :: rest0 =>
          match findBlockEnd kw2 (rest0.length + 1) rest0 with
          | some (content, rest2) =>
            (c0 :: content) :: matchBlocksAux kw1 kw2 fuel rest2
          | none => skip ()
    else skip ()

/-- All captures of `/kw1\s+([\s\S]+?)\s+kw2/g`. -/
def matchBlocks (kw1 kw2 cs : Str) : List Str :=
  matchBlocksAux kw1 kw2 (cs.length + 1) cs

/-- All captures of `/[\(\<]([^\)\>]+)[\)\>]/g` over a text block: an
opening parenthesis or angle bracket, a non-empty greedy run of characters
that are neither `)` nor `>`, then one closing character. -/
def innerStringsAux : Nat → Str → List Str
  | 0, _ => []
  | _ + 1, [] => []
  | fuel + 1, c :: rest =>
    if c = '(' ∨ c = '<' then
      let grp := rest.takeWhile (fun d => !(d == ')' || d == '>'))
      let after := rest.dropWhile (fun d => !(d == ')' || d == '>'))
      match grp, after with
      | _ :: _, _ :: rest2 => grp :: innerStringsAux fuel rest2
      | _, _ => innerStringsAux fuel rest
    else innerStringsAux fuel rest

/-- All captures of `/[\(\<]([^\)\>]+)[\)\>]/g`. -/
def innerStrings (cs : Str) : List Str :=
  innerStringsAux (cs.length + 1) cs

/-- Replacement character of the escape handler in `extractTextFromPDF`
(`index.ts` version: `\n`, `\r`, `\t` map to themselves as control
characters; `\\`, `\(`, `\)` drop the backslash). -/
def unescapeChar (c : Char) : Char :=
  if c = 'n' then '\n' else if c = 'r' then '\r'
  else if c = 't' then '\t' else c

/-- JS `text.replace(/\\([\\()rnt])/g, ...)`. -/
def unescapePdf : Str → Str
  | [] => []
  | [c] => [c]
  | a :: b :: rest =>
    if a = '\\' ∧ (b = '\\' ∨ b = '(' ∨ b = ')' ∨
        b = 'r' ∨ b = 'n' ∨ b = 't') then
      unescapeChar b :: unescapePdf rest
    else a :: unescapePdf (b :: rest)

/-- Strategy 1 of `extractTextFromPDF`: for every `BT ... ET` text object,
every parenthesised or angle-bracketed string, unescaped, followed by a
space. -/
def btScanText (raw : Str) : Str :=
  ((matchBlocks (toL "BT") (toL "ET") raw).map (fun content =>
    ((innerStrings content).map (fun s => unescapePdf s ++ [' '])).flatten
  )).flatten

/-- Character class `[A-Za-z0-9\/\-\.\,\s]` of the stream scan. -/
def isStreamTextChar (c : Char) : Bool :=
  ('A' ≤ c && c ≤ 'Z') || ('a' ≤ c && c ≤ 'z') || isDigitChar c ||
    c == '/' || c == '-' || c == '.' || c == ',' || isWsChar c

/-- All matches of `/p{n,}/g`: maximal runs of characters satisfying `p`,
kept when at least `minLen` long. -/
def classRunsAux (p : Char → Bool) (minLen : Nat) : Nat → Str → List Str
  | 0, _ => []
  | _ + 1, [] => []
  | fuel + 1, c :: rest =>
    if p c then
      let run := (c :: rest).takeWhile p
      let after := (c :: rest).dropWhile p
      if minLen ≤ run.length then run :: classRunsAux p minLen fuel after
      else classRunsAux p minLen fuel after
    else classRunsAux p minLen fuel rest

/-- All matches of `/p{n,}/g`. -/
def classRuns (p : Char → Bool) (minLen : Nat) (cs : Str) : List Str :=
  classRunsAux p minLen (cs.length + 1) cs

/-- Strategy 2 of `extractTextFromPDF`: for every `stream ... endstream`
block, the printable runs of length at least 3, joined by spaces and
prefixed by one space — appended whenever the block yields any run. -/
def streamScanText (raw : Str) : Str :=
  ((matchBlocks (toL "stream") (toL "endstream") raw).map (fun block =>
    let texts := classRuns isStreamTextChar 3 block
    if texts.isEmpty then [] else ' ' :: (List.intercalate (toL " ") texts)
  )).flatten

/-- ASCII letter test (`[A-Za-z]`). -/
def isLetterChar (c : Char) : Bool :=
  ('A' ≤ c && c ≤ 'Z') || ('a' ≤ c && c ≤ 'z')

/-- Character class `[\w\s\.,\-\/]` of the readable-text fallback. -/
def isReadableChar (c : Char) : Bool :=
  isLetterChar c || isDigitChar c || c == '_' || isWsChar c ||
    c == '.' || c == ',' || c == '-' || c == '/'

/-- All matches of `/[A-Za-z]{3,}[\w\s\.,\-\/]+/g`: a maximal letter run of
length at least 3 followed by the greedy run of word characters,
whitespace and punctuation.  When nothing in the class follows the letter
run, backtracking hands the run's last letters to the second part, so a
letter run of length at least 4 still matches on its own. -/
def readableRunsAux : Nat → Str → List Str
  | 0, _ => []
  | _ + 1, [] => []
  | fuel + 1, c :: rest =>
    if isLetterChar c then
      let letters := (c :: rest).takeWhile isLetterChar
      let afterLetters := (c :: rest).dropWhile isLetterChar
      if 3 ≤ letters.length then
        let tailRun := afterLetters.takeWhile isReadableChar
        if 1 ≤ tailRun.length then
          (letters ++ tailRun) ::
            readableRunsAux fuel (afterLetters.drop tailRun.length)
        else if 4 ≤ letters.length then
          letters :: readableRunsAux fuel afterLetters
        else readableRunsAux fuel afterLetters
      else readableRunsAux fuel afterLetters
    else readableRunsAux fuel rest

/-- Strategy 3 of `extractTextFromPDF`: the readable-text matches over the
whole raw file, joined by spaces and prefixed by one space — appended
whenever any match exists. -/
def readableScanText (raw : Str) : Str :=
  let readable := readableRunsAux (raw.length + 1) raw
  if readable.isEmpty then [] else ' ' :: (List.intercalate (toL " ") readable)

/-- The function `extractTextFromPDF` of `parse-bca-statement/index.ts`:
the structured `BT`/`ET` scan, the `stream` scan and the readable-text
fallback all run unconditionally, and their outputs are concatenated in
that order. -/
def extractTextFromPDF (raw : Str) : Str :=
  btScanText raw ++ streamScanText raw ++ readableScanText raw

/-- Whether a PL/pgSQL call ended in a raised exception. -/
def exceptIsError {α : Type} : Except Str α → Bool
  | .ok _ => false
  | .error _ => true

/-- The petty cash account `1102` as the migrations create it. -/
def pettyCashAccountFix : Account :=
  { id := 1, code := toL "1102", name := toL "Petty Cash",
    accountType := toL "asset", accountGroup := toL "",
    normalBalance := toL "debit", isActive := true, description := toL "" }

/-- A ledger holding only the petty cash account. -/
def ledgerWithPettyFix : LedgerDB :=
  { coa := [pettyCashAccountFix], banks := [], entries := [], lines := [],
    pettyTxns := [], nextId := 10 }

/-- A ledger whose chart of accounts is missing account `1102`. -/
def ledgerNoPettyFix : LedgerDB :=
  { coa := [], banks := [], entries := [], lines := [], pettyTxns := [],
    nextId := 10 }

/-- A petty-cash withdrawal of 100 with no bank account reference
(`bank_account_id` is `NULL`). -/
def withdrawNoBankFix : PettyTxn :=
  { id := 7, transactionType := toL "withdraw",
    transactionDate := { year := 2026, month := 1, day := 15 },
    transactionNumber := toL "PC-001", amount := 100,
    description := toL "cash", expenseCategory := none,
    bankAccountId := none, fundTransferId := none }

/-- A sample loan date. -/
def dateFix : Date := { year := 2026, month := 1, day := 15 }

/-- Trial-balance input: one active debit-normal account with a single
debit line of 50 whose journal entry is dated day 5. -/
def tbFixDB : TrialBalanceDB :=
  { coa := [pettyCashAccountFix],
    entries := [{ id := 5, entryDay := 5 }],
    lines := [{ journalEntryId := 5, lineNumber := 1, accountId := 1,
                debit := 50, credit := 0, description := toL "" }] }

/-- A parse result with zero recovered transactions. -/
def parsedEmptyFix : ParsedStatement :=
  { period := toL "JANUARI 2026", startDate := toL "2026-01-01",
    endDate := toL "2026-01-31", openingBalance := decZero,
    closingBalance := decZero, transactions := [] }

/-- An upload store with some pre-existing content. -/
def storeFix : UploadStore :=
  { documents := [toL "old.pdf"],
    uploads := [{ id := 1, bankAccountId := 4,
                  statementPeriod := toL "DESEMBER 2025",
                  transactionCount := 2, status := toL "completed" }],
    statementLines := [], nextUploadId := 2 }

/-- A journal entry posted for petty-cash transaction 7. -/
def delEntryPettyFix : JournalEntry :=
  { id := 31, entryNumber := toL "JE-20260115-0001",
    entryDate := { year := 2026, month := 1, day := 15 },
    sourceModule := toL "petty_cash", referenceId := 7,
    referenceNumber := toL "PC-001", description := toL "",
    isPosted := true }

/-- A journal entry from another source module. -/
def delEntryOtherFix : JournalEntry :=
  { id := 32, entryNumber := toL "JE-20260115-0002",
    entryDate := { year := 2026, month := 1, day := 15 },
    sourceModule := toL "staff_loan", referenceId := 7,
    referenceNumber := toL "LOAN-2601-0001", description := toL "",
    isPosted := true }

/-- A line of the petty-cash entry. -/
def delLinePettyFix : JournalLine :=
  { journalEntryId := 31, lineNumber := 1, accountId := 1, debit := 100,
    credit := 0, description := toL "" }

/-- A line of the unrelated entry. -/
def delLineOtherFix : JournalLine :=
  { journalEntryId := 32, lineNumber := 1, accountId := 1, debit := 40,
    credit := 0, description := toL "" }

/-- A ledger holding one petty-cash entry and one unrelated entry. -/
def dbDeleteFix : LedgerDB :=
  { coa := [pettyCashAccountFix], banks := [],
    entries := [delEntryPettyFix, delEntryOtherFix],
    lines := [delLinePettyFix, delLineOtherFix],
    pettyTxns := [withdrawNoBankFix], nextId := 40 }

/-- Nine provisioned staff members occupying codes `1161` through
`1169` — the state `create_staff_account` itself reaches after nine
distinct provisions. -/
def staffNineFix : StaffDB :=
  { coa := (List.range 9).map (fun i =>
      { id := i + 1, code := toL "116" ++ [natDigitChar (i + 1)],
        name := toL "S" ++ decChars (i + 1) ++ toL " - Staff Advance",
        accountType := toL "asset", accountGroup := toL "",
        normalBalance := toL "", isActive := true,
        description := toL "" }),
    staff := (List.range 9).map (fun i =>
      { id := 100 + i, staffName := toL "S" ++ decChars (i + 1),
        coaAccountId := i + 1, employeeId := none }),
    nextId := 200 }

/-- An empty staff registry. -/
def staffEmptyFix : StaffDB := { coa := [], staff := [], nextId := 0 }

/-- A raw document on which the structured `BT`/`ET` scan already
succeeds and the other scans also find text. -/
def rawPdfFix : Str := toL "BT (HELLO WORLD) ET stream AB/cd endstream"

/-- A pattern-1 match carrying a `CR` indicator. -/
def matchCRFix : P1Match :=
  { dayStr := toL "12", monthStr := toL "01",
    desc := toL "TRANSFER MASUK", amountStr := toL "1.500.000,00",
    indicator := some (toL "CR"), balanceStr := some (toL "5.000.000,00") }

/-- The transaction `mkTxnP1` produces for `matchCRFix`. -/
def txnCRFix : ParsedTxn :=
  { date := toL "2026-01-12", description := toL "TRANSFER MASUK",
    branchCode := toL "",
    debitAmount := decZero,
    creditAmount := { mant := 150000000, scale := 2 },
    balance := some { mant := 500000000, scale := 2 } }

/-- A parsed transaction is one-sided: both sides are non-negative,
exactly one is strictly positive, and the total stays below `10^12`. -/
def OneSidedTxn (t : ParsedTxn) : Prop :=
  (0 ≤ t.debitAmount.toRat ∧ 0 ≤ t.creditAmount.toRat) ∧
  ((0 < t.debitAmount.toRat ∧ t.creditAmount.toRat = 0) ∨
   (0 < t.creditAmount.toRat ∧ t.debitAmount.toRat = 0)) ∧
  t.debitAmount.toRat + t.creditAmount.toRat < 1000000000000

theorem charVal_natDigitChar {d : Nat} (h : d < 10) :
    charVal (natDigitChar d) = d := by
  interval_cases d <;> decide

theorem parseNatChars_append_digit (xs : Str) (c : Char) :
    parseNatChars (xs ++ [c]) = 10 * parseNatChars xs + charVal c := by
  simp [parseNatChars, List.foldl_append]

theorem parseNatChars_decCharsAux {fuel n : Nat} (h : n < fuel) :
    parseNatChars (decCharsAux fuel n) = n := by
  induction fuel generalizing n with
  | zero => omega
  | succ f ih =>
    by_cases hn : n < 10
    · simp [decCharsAux, hn, parseNatChars, charVal_natDigitChar hn]
    · have hdiv : n / 10 < f := by omega
      simp only [decCharsAux, if_neg hn]
      rw [parseNatChars_append_digit, ih hdiv,
        charVal_natDigitChar (Nat.mod_lt n (by omega))]
      omega

theorem parseNatChars_decChars (n : Nat) : parseNatChars (decChars n) = n :=
  parseNatChars_decCharsAux (Nat.lt_succ_self n)

theorem decCharsAux_length_le {fuel n k : Nat} (hf : n < fuel)
    (hk : n < 10 ^ k) (hk1 : 1 ≤ k) : (decCharsAux fuel n).length ≤ k := by
  induction fuel generalizing n k with
  | zero => omega
  | succ f ih =>
    by_cases hn : n < 10
    · simpa [decCharsAux, hn] using hk1
    · have hk2 : 2 ≤ k := by
        by_contra hlt
        have : k = 1 := by omega
        subst this
        simp [pow_one] at hk
        omega
      have hdiv : n / 10 < f := by omega
      have hdivk : n / 10 < 10 ^ (k - 1) := by
        have h10 : 10 ^ k = 10 ^ (k - 1) * 10 := by
          rw [← pow_succ]
          congr 1
          omega
        rw [Nat.div_lt_iff_lt_mul (by omega)]
        omega
      have := ih hdiv hdivk (by omega)
      simp only [decCharsAux, if_neg hn, List.length_append,
        List.length_singleton]
      omega

theorem decChars_length_le_four {n : Nat} (h : n ≤ 9999) :
    (decChars n).length ≤ 4 :=
  decCharsAux_length_le (Nat.lt_succ_self n) (by omega) (by omega)

theorem parseNatChars_replicate_zero (k : Nat) (s : Str) :
    parseNatChars (List.replicate k '0' ++ s) = parseNatChars s := by
  induction k with
  | zero => simp
  | succ m ih =>
    have : List.replicate (m + 1) '0' ++ s = '0' :: (List.replicate m '0' ++ s) := by
      simp [List.replicate_succ]
    rw [this]
    simpa [parseNatChars, charVal] using ih

theorem parseNatChars_lpadZero_decChars {n : Nat} (h : n ≤ 9999) :
    parseNatChars (lpadZero 4 (decChars n)) = n := by
  have hlen := decChars_length_le_four h
  unfold lpadZero
  by_cases h4 : 4 ≤ (decChars n).length
  · have : (decChars n).length = 4 := by omega
    rw [if_pos h4, List.take_of_length_le (by omega), parseNatChars_decChars]
  · rw [if_neg h4, parseNatChars_replicate_zero, parseNatChars_decChars]

theorem lpadZero_decChars_inj {n m : Nat} (hn : n ≤ 9999) (hm : m ≤ 9999)
    (h : lpadZero 4 (decChars n) = lpadZero 4 (decChars m)) : n = m := by
  have := parseNatChars_lpadZero_decChars hn
  rw [h, parseNatChars_lpadZero_decChars hm] at this
  omega

theorem lpadZero_length_four (s : Str) (h : s.length ≤ 4) :
    (lpadZero 4 s).length = 4 := by
  unfold lpadZero
  by_cases h4 : 4 ≤ s.length
  · rw [if_pos h4]
    simp
    omega
  · rw [if_neg h4]
    simp
    omega

/-- C1: the claim that every entry the posting engine creates is balanced —
and that a petty-cash withdraw never yields a one-line entry — fails on the
code: `post_petty_cash_to_journal_fixed` emits the credit line of a
withdrawal only when a bank account with a linked ledger account is
present, so a withdrawal of 100 with `bank_account_id IS NULL` persists a
journal entry with exactly one line, total debit 100 and total credit 0. -/
theorem c1_withdraw_without_bank_creates_unbalanced_entry :
    (insertPettyCashTxn ledgerWithPettyFix withdrawNoBankFix).entries.length
        = 1 ∧
    (insertPettyCashTxn ledgerWithPettyFix withdrawNoBankFix).lines.length
        = 1 ∧
    sumDebits (insertPettyCashTxn ledgerWithPettyFix withdrawNoBankFix).lines
        = 100 ∧
    sumCredits (insertPettyCashTxn ledgerWithPettyFix withdrawNoBankFix).lines
        = 0 := by decide

/-- C2 counterexample: with account `1102` absent, posting raises, yet the
petty-cash insert still persists the event row and returns normally — the
source event is saved with no journal data, contradicting the claim that
the whole operation aborts. -/
theorem c2_posting_error_swallowed_event_persists :
    exceptIsError (postPettyCashToJournalFixed ledgerNoPettyFix
      withdrawNoBankFix) = true ∧
    insertPettyCashTxn ledgerNoPettyFix withdrawNoBankFix =
      { ledgerNoPettyFix with pettyTxns := [withdrawNoBankFix] } := by decide

/-- C2 amended: when posting a petty-cash transaction raises internally,
the trigger's `EXCEPTION WHEN OTHERS` handler logs a warning and returns
`NEW`, so the event row is persisted anyway and the journal is left
untouched; the error never aborts the insert. -/
theorem c2_amended_posting_error_never_aborts (db : LedgerDB) (t : PettyTxn)
    (e : Str) (h : postPettyCashToJournalFixed db t = .error e) :
    insertPettyCashTxn db t =
      { db with pettyTxns := db.pettyTxns ++ [t] } := by
  unfold insertPettyCashTxn
  rw [h]

/-- C2 amended witness: the error state above instantiates the amended
theorem. -/
theorem c2_amended_witness :
    postPettyCashToJournalFixed ledgerNoPettyFix withdrawNoBankFix =
      .error (toL "Petty cash account 1102 not found") ∧
    insertPettyCashTxn ledgerNoPettyFix withdrawNoBankFix =
      { ledgerNoPettyFix with
          pettyTxns := ledgerNoPettyFix.pettyTxns ++ [withdrawNoBankFix] } :=
  ⟨rfl, c2_amended_posting_error_never_aborts ledgerNoPettyFix
    withdrawNoBankFix (toL "Petty cash account 1102 not found") rfl⟩

/-- C3 counterexample: two concurrent allocations in the same
`(documentKind, periodKey)` both count the same committed snapshot, so
both compute `LOAN-2601-0001` and the resulting loan numbers are not
distinct. -/
theorem c3_concurrent_allocations_collide :
    ((concurrentLoanInserts [] dateFix).map (fun l => l.loanNumber)) =
      [toL "LOAN-2601-0001", toL "LOAN-2601-0001"] ∧
    ¬ ((concurrentLoanInserts [] dateFix).map
        (fun l => l.loanNumber)).Nodup := by decide

/-- C3 amended: every generated loan number has the format
`LOAN-PERIODKEY-NNNN` with `NNNN` exactly four characters, and two
allocations executed sequentially — the second seeing the first's
committed row — produce distinct numbers (for ordinals below the 4-digit
truncation bound); distinctness under concurrent allocation does not
hold. -/
theorem countLoansInMonth_append_one (loans : List StaffLoan) (d : Date)
    (x : StaffLoan) (hx : sameMonth x.loanDate d = true) :
    countLoansInMonth (loans ++ [x]) d = countLoansInMonth loans d + 1 := by
  unfold countLoansInMonth
  rw [List.filter_append]
  simp [hx]

theorem generateLoanNumber_eq_count_eq (l1 l2 : List StaffLoan) (d : Date)
    (h1 : countLoansInMonth l1 d + 1 ≤ 9999)
    (h2 : countLoansInMonth l2 d + 1 ≤ 9999)
    (heq : generateLoanNumber l1 d = generateLoanNumber l2 d) :
    countLoansInMonth l1 d = countLoansInMonth l2 d := by
  unfold generateLoanNumber at heq
  have e1 := List.append_cancel_left heq
  have := lpadZero_decChars_inj (by omega) (by omega) e1
  omega

theorem c3_amended_format_and_sequential_distinct (loans : List StaffLoan)
    (d : Date) (h : countLoansInMonth loans d + 2 ≤ 9999) :
    (generateLoanNumber loans d =
      toL "LOAN-" ++ toCharYYMM d ++ toL "-" ++
        lpadZero 4 (decChars (countLoansInMonth loans d + 1)) ∧
     (lpadZero 4 (decChars (countLoansInMonth loans d + 1))).length = 4) ∧
    generateLoanNumber
        (loans ++ [{ loanNumber := generateLoanNumber loans d,
                     loanDate := d }]) d ≠
      generateLoanNumber loans d := by
  constructor
  · exact ⟨rfl, lpadZero_length_four _ (decChars_length_le_four (by omega))⟩
  · intro heq
    have hcnt := countLoansInMonth_append_one loans d
      { loanNumber := generateLoanNumber loans d, loanDate := d }
      (by simp [sameMonth])
    have hsame := generateLoanNumber_eq_count_eq _ loans d
      (by rw [hcnt]; omega) (by omega) heq
    rw [hcnt] at hsame
    omega

/-- C3 amended witness: starting from an empty table, the first two
sequential allocations are `LOAN-2601-0001` and `LOAN-2601-0002`. -/
theorem c3_amended_witness :
    countLoansInMonth [] dateFix + 2 ≤ 9999 ∧
    generateLoanNumber
        [{ loanNumber := generateLoanNumber [] dateFix,
           loanDate := dateFix }] dateFix ≠
      generateLoanNumber [] dateFix :=
  ⟨by decide,
   (c3_amended_format_and_sequential_distinct [] dateFix (by decide)).2⟩

/-- C4: the claim that the trial balance restricts to movement within the
date range fails on the code: `get_trial_balance` puts the date predicate
in the `ON` clause of the `LEFT JOIN` to `journal_entries`, which never
removes line rows, so a ledger whose only line belongs to an entry dated
day 5 still produces a row with `total_debit = 50` for the query range
`[10, 20]` — a range in which no line has any movement. -/
theorem c4_trial_balance_ignores_date_range :
    (∀ l ∈ tbFixDB.lines, ∀ je ∈ tbFixDB.entries,
      je.id = l.journalEntryId →
        trialBalanceDateOk (some 10) 20 je.entryDay = false) ∧
    getTrialBalance tbFixDB (some 10) 20 =
      [{ code := toL "1102", name := toL "Petty Cash",
         accountType := toL "asset", accountGroup := toL "",
         normalBalance := toL "debit", totalDebit := 50, totalCredit := 0,
         balance := 50 }] := by decide

/-- C5: when the parser recovers zero transaction lines the upload handler
answers with the error response and leaves the store untouched — no
`bank_statement_uploads` row, no `bank_statement_lines` rows and no stored
document. -/
theorem c5_zero_transactions_rejected_without_persisting
    (parsed : ParsedStatement) (bankAccountId : Nat) (fileName : Str)
    (st : UploadStore) (h : parsed.transactions = []) :
    handleUpload parsed bankAccountId fileName st =
      (st, .failure (toL
        "No transactions found in PDF. Please check if this is a valid BCA statement.")) := by
  unfold handleUpload
  rw [h]
  simp

/-- C5 witness: a parse result with zero transactions against a store with
pre-existing content. -/
theorem c5_witness :
    parsedEmptyFix.transactions = [] ∧
    handleUpload parsedEmptyFix 4 (toL "jan.pdf") storeFix =
      (storeFix, .failure (toL
        "No transactions found in PDF. Please check if this is a valid BCA statement.")) :=
  ⟨rfl, c5_zero_transactions_rejected_without_persisting parsedEmptyFix 4
    (toL "jan.pdf") storeFix rfl⟩

/-- C7: with exactly one journal entry recorded for a petty-cash source,
deleting the source removes that entry and all of its lines and leaves
every other journal entry and every other line in place, adding nothing. -/
theorem c7_delete_removes_exactly_its_entry_and_lines (db : LedgerDB)
    (tid : Nat) (e : JournalEntry) (he : e ∈ db.entries)
    (hm : e.sourceModule = toL "petty_cash" ∧ e.referenceId = tid)
    (huniq : ∀ je ∈ db.entries, je.sourceModule = toL "petty_cash" →
      je.referenceId = tid → je = e) :
    e ∉ (deletePettyCashTxn db tid).entries ∧
    (∀ je ∈ db.entries, je ≠ e →
      je ∈ (deletePettyCashTxn db tid).entries) ∧
    (∀ l ∈ db.lines, l.journalEntryId = e.id →
      l ∉ (deletePettyCashTxn db tid).lines) ∧
    (∀ l ∈ db.lines, l.journalEntryId ≠ e.id →
      l ∈ (deletePettyCashTxn db tid).lines) ∧
    (∀ je ∈ (deletePettyCashTxn db tid).entries, je ∈ db.entries) ∧
    (∀ l ∈ (deletePettyCashTxn db tid).lines, l ∈ db.lines) := by
  refine ⟨?_, ?_, ?_, ?_, ?_, ?_⟩
  · simp [deletePettyCashTxn, hm.1, hm.2]
  · intro je hje hne
    simp only [deletePettyCashTxn, List.mem_filter]
    refine ⟨hje, ?_⟩
    simp only [Bool.not_eq_true', Bool.and_eq_false_iff, beq_eq_false_iff_ne]
    by_cases hsm : je.sourceModule = toL "petty_cash"
    · by_cases href : je.referenceId = tid
      · exact absurd (huniq je hje hsm href) hne
      · exact Or.inr href
    · exact Or.inl hsm
  · intro l hl hid
    simp only [deletePettyCashTxn, List.mem_filter, List.contains_eq_any_beq]
    intro hc
    apply absurd hc.2
    simp only [Bool.not_eq_true', Bool.not_eq_false, List.any_eq_true]
    refine ⟨e.id, List.mem_map_of_mem _ (List.mem_filter.mpr ⟨he, ?_⟩), ?_⟩
    · simp [hm.1, hm.2]
    · simp [hid]
  · intro l hl hid
    simp only [deletePettyCashTxn, List.mem_filter,
      List.contains_eq_any_beq]
    refine ⟨hl, ?_⟩
    simp only [Bool.not_eq_true', List.any_eq_false]
    intro x hx
    obtain ⟨je, hjemem, rfl⟩ := List.mem_map.mp hx
    rw [List.mem_filter] at hjemem
    have h2 := hjemem.2
    simp only [Bool.and_eq_true, beq_iff_eq] at h2
    have := huniq je hjemem.1 h2.1 h2.2
    subst this
    simp
    exact fun hc => hid hc
  · intro je hje
    rw [deletePettyCashTxn] at hje
    exact (List.mem_filter.mp hje).1
  · intro l hl
    rw [deletePettyCashTxn] at hl
    exact (List.mem_filter.mp hl).1

/-- C7 witness: a ledger with one petty-cash entry for source 7 and one
unrelated entry; the delete removes the petty-cash entry and its line and
keeps the others. -/
theorem c7_witness :
    delEntryPettyFix ∉ (deletePettyCashTxn dbDeleteFix 7).entries ∧
    delEntryOtherFix ∈ (deletePettyCashTxn dbDeleteFix 7).entries ∧
    delLinePettyFix ∉ (deletePettyCashTxn dbDeleteFix 7).lines ∧
    delLineOtherFix ∈ (deletePettyCashTxn dbDeleteFix 7).lines := by
  have h := c7_delete_removes_exactly_its_entry_and_lines dbDeleteFix 7
    delEntryPettyFix (by decide) (by decide) (by decide)
  exact ⟨h.1, h.2.1 delEntryOtherFix (by decide) (by decide),
    h.2.2.1 delLinePettyFix (by decide) (by decide),
    h.2.2.2.1 delLineOtherFix (by decide) (by decide)⟩

/-- C8 counterexample: after nine provisioned staff accounts occupy codes
`1161` through `1169`, provisioning a tenth distinct name computes
`LPAD('10', 1, '0') = '1'`, so the generated code is `1161` again; the
insert hits the unique-code constraint and the call fails, creating
nothing — the claim's unconditional "otherwise it creates exactly one new
account" is false. -/
theorem c8_tenth_provision_collides :
    nextStaffCode staffNineFix.coa = toL "1161" ∧
    (staffNineFix.coa.any
      (fun a => a.code == nextStaffCode staffNineFix.coa)) = true ∧
    (createStaffAccount staffNineFix (toL "JODI") none).1 = staffNineFix ∧
    exceptIsError (createStaffAccount staffNineFix (toL "JODI") none).2
      = true := by decide

/-- C8 amended: provisioning is idempotent per staff name — a later call
with the same name (case-insensitively) returns the account made for it
and changes nothing — and, provided the generated `116x` code is not
already taken (true only while fewer than nine staff accounts exist, since
the single-character `LPAD` truncates the tenth ordinal back to `1`),
provisioning a new name creates exactly one account in the `116x` range
and one staff mapping to it. -/
theorem c8_amended_provision_idempotent_and_creates_one (st : StaffDB)
    (name : Str) (eid : Option Str)
    (h1 : st.staff.find?
      (fun m => lowerStr m.staffName == lowerStr name) = none)
    (h2 : st.coa.any (fun a => a.code == nextStaffCode st.coa) = false) :
    (createStaffAccount st name eid).2 = .ok st.nextId ∧
    (∃ acct : Account,
      (createStaffAccount st name eid).1.coa = st.coa ++ [acct] ∧
      acct.code = nextStaffCode st.coa ∧
      (toL "116").isPrefixOf acct.code = true ∧ acct.id = st.nextId) ∧
    (∃ mem : StaffMember,
      (createStaffAccount st name eid).1.staff = st.staff ++ [mem] ∧
      mem.staffName = name ∧ mem.coaAccountId = st.nextId) ∧
    createStaffAccount (createStaffAccount st name eid).1 name eid =
      ((createStaffAccount st name eid).1, .ok st.nextId) := by
  simp only [createStaffAccount, h1, h2]
  simp only [Bool.false_eq_true, if_false]
  refine ⟨trivial, ?_, ?_, ?_⟩
  · refine ⟨_, rfl, rfl, ?_, rfl⟩
    rw [ List.isPrefixOf_iff_prefix]
    exact List.prefix_append _ _
  · exact ⟨_, rfl, rfl, rfl⟩
  · rw [List.find?_append, h1]
    simp

/-- C8 amended witness: provisioning `ANDI` into the empty registry
creates its account and a retry returns it unchanged. -/
theorem c8_amended_witness :
    staffEmptyFix.staff.find?
      (fun m => lowerStr m.staffName == lowerStr (toL "ANDI")) = none ∧
    staffEmptyFix.coa.any
      (fun a => a.code == nextStaffCode staffEmptyFix.coa) = false ∧
    (createStaffAccount staffEmptyFix (toL "ANDI") none).2 =
      .ok staffEmptyFix.nextId ∧
    createStaffAccount
        (createStaffAccount staffEmptyFix (toL "ANDI") none).1
        (toL "ANDI") none =
      ((createStaffAccount staffEmptyFix (toL "ANDI") none).1,
        .ok staffEmptyFix.nextId) :=
  ⟨rfl, rfl,
   (c8_amended_provision_idempotent_and_creates_one staffEmptyFix
     (toL "ANDI") none rfl rfl).1,
   (c8_amended_provision_idempotent_and_creates_one staffEmptyFix
     (toL "ANDI") none rfl rfl).2.2.2⟩

/-- C9 counterexample: on a document whose structured `BT`/`ET` scan
already yields the non-trivial text `HELLO WORLD `, the extracted text is
not that scan's output alone — the stream scan and the readable-text scan
still append their findings, so later strategies do contribute. -/
theorem c9_later_strategies_still_contribute :
    btScanText rawPdfFix = toL "HELLO WORLD " ∧
    10 ≤ (btScanText rawPdfFix).length ∧
    extractTextFromPDF rawPdfFix ≠ btScanText rawPdfFix := by decide

/-- C9 amended: `extractTextFromPDF` does not stop at the first strategy
that yields text; all three scans run unconditionally and their outputs
are concatenated, so whenever the structured scan succeeds and the
readable-text scan finds anything, the extracted text strictly extends the
structured scan's output with later-strategy content. -/
theorem c9_amended_extraction_concatenates_all_strategies (raw : Str)
    (h1 : btScanText raw ≠ []) (h2 : readableScanText raw ≠ []) :
    ∃ rest : Str, extractTextFromPDF raw = btScanText raw ++ rest ∧
      rest ≠ [] := by
  refine ⟨streamScanText raw ++ readableScanText raw, ?_, ?_⟩
  · simp [extractTextFromPDF]
  · intro hc
    exact h2 (List.append_eq_nil.mp hc).2

/-- C9 amended witness: the sample document instantiates the amended
theorem. -/
theorem c9_amended_witness :
    btScanText rawPdfFix ≠ [] ∧ readableScanText rawPdfFix ≠ [] ∧
    ∃ rest : Str, extractTextFromPDF rawPdfFix =
      btScanText rawPdfFix ++ rest ∧ rest ≠ [] :=
  ⟨by decide, by decide,
   c9_amended_extraction_concatenates_all_strategies rawPdfFix
     (by decide) (by decide)⟩

theorem dropWhile_eq_self_of_none (p : Char → Bool) (s : Str)
    (h : ∀ c ∈ s, p c = false) : s.dropWhile p = s := by
  cases s with
  | nil => rfl
  | cons c rest => simp [List.dropWhile_cons, h c (List.mem_cons_self c rest)]

theorem trimStr_of_amount_token {s : Str} (h : IsAmountToken s) :
    trimStr s = s := by
  have hws : ∀ c ∈ s, isWsChar c = false := by
    intro c hc
    rcases h c hc with hd | hd | hd
    · rcases Bool.and_eq_true .. |>.mp hd with ⟨h1, h2⟩
      simp only [isWsChar]
      revert h1 h2
      simp only [decide_eq_true_eq]
      intro h1 h2
      have : c ≠ ' ' ∧ c ≠ '\t' ∧ c ≠ '\n' ∧ c ≠ '\r' := by
        refine ⟨?_, ?_, ?_, ?_⟩ <;> rintro rfl <;> simp_all
      simp [this.1, this.2.1, this.2.2.1, this.2.2.2]
    · subst hd; rfl
    · subst hd; rfl
  unfold trimStr
  rw [dropWhile_eq_self_of_none _ _ hws]
  rw [dropWhile_eq_self_of_none _ _ (by simpa using hws)]
  simp

theorem filter_digits_of_no_separators {s : Str} (h : IsAmountToken s)
    (hd : s.count '.' = 0) (hc : s.count ',' = 0) :
    s.filter isDigitChar = s := by
  rw [List.filter_eq_self]
  intro c hcmem
  rcases h c hcmem with hdig | rfl | rfl
  · exact hdig
  · exact absurd hd (by simp [List.count_eq_zero, hcmem])
  · exact absurd hc (by simp [List.count_eq_zero, hcmem])

/-- C6: the monetary normaliser maps `1.234.567,89` and `1,234,567.89`
to `1234567.89` and leaves `1234567` alone, and on every
separator-alphabet token `parseAmount` agrees with the spec's
disambiguation rules applied in their stated order. -/
theorem c6_parse_amount_matches_spec_rules :
    (parseAmount (toL "1.234.567,89")).toRat = (123456789 : Rat) / 100 ∧
    (parseAmount (toL "1,234,567.89")).toRat = (123456789 : Rat) / 100 ∧
    (parseAmount (toL "1234567")).toRat = (1234567 : Rat) ∧
    ∀ s : Str, IsAmountToken s → parseAmount s = specNormalize s := by
  refine ⟨?_, ?_, ?_, ?_⟩
  · have h : parseAmount (toL "1.234.567,89") =
        { mant := 123456789, scale := 2 } := by decide
    rw [h]
    unfold DecAmount.toRat
    norm_num
  · have h : parseAmount (toL "1,234,567.89") =
        { mant := 123456789, scale := 2 } := by decide
    rw [h]
    unfold DecAmount.toRat
    norm_num
  · have h : parseAmount (toL "1234567") =
        { mant := 1234567, scale := 0 } := by decide
    rw [h]
    unfold DecAmount.toRat
    norm_num
  · intro s hs
    have htrim : trimStr s = s := trimStr_of_amount_token hs
    by_cases hd2 : s.count '.' > 1
    · simp [parseAmount, cleanAmount, specNormalize, htrim, hd2]
    · by_cases hc2 : s.count ',' > 1
      · have hne : ¬(s.count '.' = 1 ∧ s.count ',' = 1) := by omega
        simp [parseAmount, cleanAmount, specNormalize, htrim, hd2, hc2, hne]
      · by_cases hd1 : s.count '.' = 1
        · by_cases hc1 : s.count ',' = 1
          · simp [parseAmount, cleanAmount, specNormalize, htrim, hd2, hc2,
              hd1, hc1]
          · have hc0 : s.count ',' = 0 := by omega
            simp [parseAmount, cleanAmount, specNormalize, htrim, hd2, hc2,
              hd1, hc0]
        · have hd0 : s.count '.' = 0 := by omega
          by_cases hc1 : s.count ',' = 1
          · simp [parseAmount, cleanAmount, specNormalize, htrim, hd0, hc1]
          · have hc0 : s.count ',' = 0 := by omega
            have hfd := filter_digits_of_no_separators hs hd0 hc0
            simp [parseAmount, cleanAmount, specNormalize, htrim, hd0, hc0,
              hfd]

/-- C6 witness: the token `12,5` satisfies the token alphabet and the
refinement instance. -/
theorem c6_witness :
    IsAmountToken (toL "12,5") ∧
    parseAmount (toL "12,5") = specNormalize (toL "12,5") :=
  ⟨by decide, c6_parse_amount_matches_spec_rules.2.2.2 (toL "12,5")
    (by decide)⟩

theorem decAmount_toRat_nonneg (d : DecAmount) : 0 ≤ d.toRat := by
  unfold DecAmount.toRat
  positivity

theorem decAmount_lt_iff {a b : DecAmount} :
    DecAmount.lt a b = true ↔ a.toRat < b.toRat := by
  unfold DecAmount.lt DecAmount.toRat
  rw [decide_eq_true_iff, div_lt_div_iff (by positivity) (by positivity)]
  constructor
  · intro h
    exact_mod_cast h
  · intro h
    exact_mod_cast h

theorem decZero_toRat : decZero.toRat = 0 := by
  simp [decZero, DecAmount.toRat]

theorem amountCeiling_toRat : amountCeiling.toRat = 1000000000000 := by
  simp [amountCeiling, DecAmount.toRat]

theorem mkTxnP1_one_sided {year : Str} {m : P1Match} {t : ParsedTxn}
    (h : mkTxnP1 year m = some t) : OneSidedTxn t := by
  simp only [mkTxnP1] at h
  by_cases hcond : decZero.lt (parseAmount m.amountStr) = true ∧
      (parseAmount m.amountStr).lt amountCeiling = true
  · rw [if_pos hcond] at h
    obtain ⟨hlt, hub⟩ := hcond
    rw [decAmount_lt_iff, decZero_toRat] at hlt
    rw [decAmount_lt_iff, amountCeiling_toRat] at hub
    have ht := Option.some_injective _ h
    subst ht
    by_cases hb : (match m.indicator with
        | none => true
        | some s => decide (upperStr s = toL "DB")) = true
    · simp only [OneSidedTxn, hb, if_true]
      refine ⟨⟨decAmount_toRat_nonneg _, decAmount_toRat_nonneg _⟩,
        Or.inl ⟨hlt, decZero_toRat⟩, ?_⟩
      rw [decZero_toRat, add_zero]
      exact hub
    · simp only [OneSidedTxn, hb, Bool.false_eq_true, if_false]
      refine ⟨⟨decAmount_toRat_nonneg _, decAmount_toRat_nonneg _⟩,
        Or.inr ⟨hlt, decZero_toRat⟩, ?_⟩
      rw [decZero_toRat, zero_add]
      exact hub
  · rw [if_neg hcond] at h
    exact absurd h (by simp)

theorem mkTxnP2_one_sided {year : Str} {m : P2Match} {t : ParsedTxn}
    (h : mkTxnP2 year m = some t) : OneSidedTxn t := by
  simp only [mkTxnP2] at h
  by_cases hcond : decZero.lt (parseAmount m.amountStr) = true ∧
      (parseAmount m.amountStr).lt amountCeiling = true
  · rw [if_pos hcond] at h
    obtain ⟨hlt, hub⟩ := hcond
    rw [decAmount_lt_iff, decZero_toRat] at hlt
    rw [decAmount_lt_iff, amountCeiling_toRat] at hub
    have ht := Option.some_injective _ h
    subst ht
    refine ⟨⟨decAmount_toRat_nonneg _, decAmount_toRat_nonneg _⟩,
      Or.inl ⟨hlt, decZero_toRat⟩, ?_⟩
    simp only [decZero_toRat, add_zero]
    exact hub
  · rw [if_neg hcond] at h
    exact absurd h (by simp)

theorem mkTxnsP3_one_sided {txnDate : Str} {tokens : List Str}
    {t : ParsedTxn} (h : t ∈ mkTxnsP3 txnDate tokens) : OneSidedTxn t := by
  simp only [mkTxnsP3] at h
  obtain ⟨p, hp, rfl⟩ := List.mem_map.mp h
  have hmem := List.snd_mem_of_mem_enum hp
  rw [List.mem_filter] at hmem
  obtain ⟨hlow, hub⟩ := (by simpa using hmem.2 :
    DecAmount.lt { mant := 1000, scale := 0 } p.2 = true ∧
    p.2.lt amountCeiling = true)
  rw [decAmount_lt_iff] at hlow
  rw [decAmount_lt_iff, amountCeiling_toRat] at hub
  have h1000 : DecAmount.toRat { mant := 1000, scale := 0 } = 1000 := by
    simp [DecAmount.toRat]
  rw [h1000] at hlow
  refine ⟨⟨decAmount_toRat_nonneg _, decAmount_toRat_nonneg _⟩,
    Or.inl ⟨by linarith, decZero_toRat⟩, ?_⟩
  simp only [decZero_toRat, add_zero]
  exact hub

/-- C10: every transaction the statement parser produces — through the
primary pattern or either fallback — is one-sided with both sides
non-negative, exactly one side strictly positive and the amount below
`10^12`; for the primary pattern, the positive side is the parsed amount,
on the credit side exactly when the indicator token upper-cases to `CR`
and on the debit side when the indicator is absent or upper-cases to
`DB`. -/
theorem c10_parsed_transactions_one_sided (year txnDate : Str)
    (m1 : List P1Match) (m2 : List P2Match) (m3 : List Str) :
    (∀ t ∈ parseTransactions year txnDate m1 m2 m3, OneSidedTxn t) ∧
    (∀ (m : P1Match) (t : ParsedTxn), mkTxnP1 year m = some t →
      ((∃ s, m.indicator = some s ∧ upperStr s = toL "CR") →
        t.creditAmount = parseAmount m.amountStr ∧
        t.debitAmount = decZero) ∧
      ((m.indicator = none ∨
          ∃ s, m.indicator = some s ∧ upperStr s = toL "DB") →
        t.debitAmount = parseAmount m.amountStr ∧
        t.creditAmount = decZero)) := by
  constructor
  · intro t ht
    simp only [parseTransactions] at ht
    by_cases h1 : (m1.filterMap (mkTxnP1 year)).isEmpty
    · rw [if_pos h1] at ht
      by_cases h2 : (m2.filterMap (mkTxnP2 year)).isEmpty
      · rw [if_pos h2] at ht
        exact mkTxnsP3_one_sided ht
      · rw [if_neg h2] at ht
        obtain ⟨m, _, hm⟩ := List.mem_filterMap.mp ht
        exact mkTxnP2_one_sided hm
    · rw [if_neg h1] at ht
      obtain ⟨m, _, hm⟩ := List.mem_filterMap.mp ht
      exact mkTxnP1_one_sided hm
  · intro m t h
    simp only [mkTxnP1] at h
    by_cases hcond : decZero.lt (parseAmount m.amountStr) = true ∧
        (parseAmount m.amountStr).lt amountCeiling = true
    · rw [if_pos hcond] at h
      have ht := Option.some_injective _ h
      subst ht
      constructor
      · rintro ⟨s, hs, hcr⟩
        have hb : (match m.indicator with
            | none => true
            | some s => decide (upperStr s = toL "DB")) = false := by
          rw [hs]
          simp only [decide_eq_false_iff_not]
          intro hdb
          rw [hcr] at hdb
          exact absurd hdb (by decide)
        simp [hb]
      · rintro (hnone | ⟨s, hs, hdb⟩)
        · have hb : (match m.indicator with
              | none => true
              | some s => decide (upperStr s = toL "DB")) = true := by
            rw [hnone]
          simp [hb]
        · have hb : (match m.indicator with
              | none => true
              | some s => decide (upperStr s = toL "DB")) = true := by
            rw [hs]
            simp [hdb]
          simp [hb]
    · rw [if_neg hcond] at h
      exact absurd h (by simp)

/-- C10 witness: the sample `CR` match yields a credit-sided transaction
satisfying the invariant. -/
theorem c10_witness :
    mkTxnP1 (toL "2026") matchCRFix = some txnCRFix ∧
    txnCRFix ∈ parseTransactions (toL "2026") (toL "2026-01-01")
      [matchCRFix] [] [] ∧
    OneSidedTxn txnCRFix ∧
    txnCRFix.creditAmount = parseAmount (toL "1.500.000,00") ∧
    txnCRFix.debitAmount = decZero := by
  refine ⟨by decide, by decide, ?_, ?_⟩
  · exact (c10_parsed_transactions_one_sided (toL "2026")
      (toL "2026-01-01") [matchCRFix] [] []).1 txnCRFix (by decide)
  · exact ((c10_parsed_transactions_one_sided (toL "2026")
      (toL "2026-01-01") [matchCRFix] [] []).2 matchCRFix txnCRFix
      (by decide)).1 ⟨toL "CR", rfl, by decide⟩
